import Mathlib

/-!
Shallow embedding of the sx126x-rs driver (Semtech SX1261/62 LoRa modem driver).

Sources embedded here:
  src/src/sx/mod.rs       - driver command surface, init sequence, send path
  src/src/sx/wait.rs      - polling wait loop
  src/src/sx/err.rs       - error kinds
  src/src/conf.rs         - configuration aggregate
  src/src/op/calib.rs     - calibration mask and image-calibration lookup
  src/src/op/modulation.rs - modulation parameter codec
  src/src/op/packet.rs    - packet parameter codec

Rust machine integers are modelled as Nat with explicit wrapping where the
source casts; fallible operations return Except; a panicking decode returns
Option.none. The f32 arithmetic of calc_rf_freq is modelled exactly over
fractions of naturals with IEEE-754 round-to-nearest-even at 24 significand
bits (unbounded exponent, which is exact for the normal-range values
involved), and the Rust float-to-u32 cast is the saturating truncation.

Source files src/op/rxtx.rs, src/op/irq.rs, src/op/status.rs,
src/op/tcxo.rs, src/reg.rs and the StandbyConfig type are not present under
src/; the definitions that stand in for them are modelled from the spec and
say so in their doc comments.
-/

/-! ## Exact model of the f32 arithmetic used by calc_rf_freq

The source computes in f32. The model below is exact: a nonnegative value
is carried as an unreduced fraction of naturals, and every f32 operation is
the exact fraction operation followed by IEEE-754 rounding to nearest with
24 significand bits, ties to even. The exponent is not clamped, which
agrees with IEEE binary32 whenever every rounded value lies in the binary32
normal range, as every value in the claims does. Only natural inputs are
modelled, since every claim evaluates calc_rf_freq on whole numbers of
hertz. -/

/-- Floor of the base-2 logarithm of a natural number, by fuel-bounded
halving so that it evaluates by kernel reduction; the fuel covers every
value below 2 to the 256. -/
def log2floorFuel : ℕ → ℕ → ℕ
  | 0, _ => 0
  | fuel + 1, n => if n ≤ 1 then 0 else log2floorFuel fuel (n / 2) + 1

/-- Floor of the base-2 logarithm of a natural number. -/
def log2floor (n : ℕ) : ℕ := log2floorFuel 256 n

/-- Round the fraction p / q to the nearest natural, ties to even. -/
def rneFrac (p q : ℕ) : ℕ :=
  let fl := p / q
  let r := p % q
  if 2 * r < q then fl
  else if q < 2 * r then fl + 1
  else if fl % 2 = 0 then fl else fl + 1

/-- Round the fraction a / b to the nearest binary32 value, returned as a
fraction whose denominator is a power of two. The binary exponent of a / b
is recovered from the floor of a times 2 to the 128 over b, which is exact
whenever a / b is at least 2 to the minus 128. -/
def roundF32 (a b : ℕ) : ℕ × ℕ :=
  if a = 0 ∨ b = 0 then (0, 1)
  else
    let e : ℤ := (log2floor (a * 2 ^ 128 / b) : ℤ) - 128
    let s : ℤ := e - 23
    if 0 ≤ s then
      let t := s.toNat
      (rneFrac a (b * 2 ^ t) * 2 ^ t, 1)
    else
      let t := (-s).toNat
      (rneFrac (a * 2 ^ t) b, 2 ^ t)

/-- IEEE binary32 multiplication of two fraction-encoded values: exact
product, correctly rounded. -/
def f32mulFrac (x y : ℕ × ℕ) : ℕ × ℕ := roundF32 (x.1 * y.1) (x.2 * y.2)

/-- IEEE binary32 division of two fraction-encoded values: exact quotient,
correctly rounded. -/
def f32divFrac (x y : ℕ × ℕ) : ℕ × ℕ := roundF32 (x.1 * y.2) (x.2 * y.1)

/-- Embeds calc_rf_freq of src/src/sx/mod.rs, lines 31 to 33: the Rust body
is ((rf_frequency * (33554432. / f_xtal)) as u32), computed in f32. Each
argument is rounded to f32 as the literal or value a caller passes would
be; the literal 33554432.0 is a power of two and hence exact in f32. The
final Rust cast of a nonnegative f32 to u32 truncates toward zero and
saturates at the top of the u32 range. -/
def calc_rf_freq (rf_frequency f_xtal : ℕ) : ℕ :=
  let prod := f32mulFrac (roundF32 rf_frequency 1)
    (f32divFrac (33554432, 1) (roundF32 f_xtal 1))
  min (prod.1 / prod.2) (2 ^ 32 - 1)

/-! ## Error kinds, src/src/sx/err.rs -/

/-- SpiError of src/src/sx/err.rs. -/
inductive SpiError where
  | write
  | transfer
  | busError
  | deviceError
deriving DecidableEq, Repr

/-- PinError of src/src/sx/err.rs. -/
inductive PinError where
  | input
  | output
deriving DecidableEq, Repr

/-! ## Calibration, src/src/op/calib.rs -/

/-- Bool to Nat, as the Rust cast (b as u8). -/
def b2n (b : Bool) : ℕ := if b then 1 else 0

/-- CalibParam of src/src/op/calib.rs: a wrapped calibration mask byte. -/
structure CalibParam where
  inner : ℕ
deriving DecidableEq, Repr

/-- CalibParam::new of src/src/op/calib.rs, lines 56 to 74: packs the seven
enable flags into one byte, bit 7 written as zero. -/
def CalibParam.new (rc64k_en rc13_en pll_en adc_pulse_en adc_bulk_n_en
    adc_bulk_p_en image_en : Bool) : CalibParam :=
  ⟨b2n rc64k_en
    ||| (b2n rc13_en <<< 1)
    ||| (b2n pll_en <<< 2)
    ||| (b2n adc_pulse_en <<< 3)
    ||| (b2n adc_bulk_n_en <<< 4)
    ||| (b2n adc_bulk_p_en <<< 5)
    ||| (b2n image_en <<< 6)
    ||| (0 <<< 7)⟩

/-- CalibParam::all of src/src/op/calib.rs. -/
def CalibParam.all : CalibParam :=
  CalibParam.new true true true true true true true

/-- CalibImageFreq of src/src/op/calib.rs: the five image-calibration
frequency bands. -/
inductive CalibImageFreq where
  | mhz430_440
  | mhz470_510
  | mhz779_787
  | mhz863_870
  | mhz902_928
deriving DecidableEq, Repr

/-- The impl From of CalibImageFreq for a 2-byte array, src/src/op/calib.rs
lines 99 to 103: big-endian bytes of the u16 discriminant. -/
def CalibImageFreq.toBytes : CalibImageFreq → List ℕ
  | .mhz430_440 => [0x6B, 0x6F]
  | .mhz470_510 => [0x75, 0x81]
  | .mhz779_787 => [0xC1, 0xC5]
  | .mhz863_870 => [0xD7, 0xDB]
  | .mhz902_928 => [0xE1, 0xE9]

/-- CalibImageFreq::from_rf_frequency of src/src/op/calib.rs, lines 110
to 119: a match on rf_freq / 1000000 over the five bands, in source order,
defaulting to the 902 to 928 band. -/
def CalibImageFreq.from_rf_frequency (rf_freq : ℕ) : CalibImageFreq :=
  let q := rf_freq / 1000000
  if 902 ≤ q ∧ q ≤ 928 then .mhz902_928
  else if 863 ≤ q ∧ q ≤ 870 then .mhz863_870
  else if 779 ≤ q ∧ q ≤ 787 then .mhz779_787
  else if 470 ≤ q ∧ q ≤ 510 then .mhz470_510
  else if 430 ≤ q ∧ q ≤ 440 then .mhz430_440
  else .mhz902_928

/-! ## Modulation codec, src/src/op/modulation.rs -/

/-- LoRaSpreadFactor of src/src/op/modulation.rs. -/
inductive LoRaSpreadFactor where
  | sf5 | sf6 | sf7 | sf8 | sf9 | sf10 | sf11 | sf12
deriving DecidableEq, Repr, Fintype

/-- The repr(u8) discriminant of LoRaSpreadFactor. -/
def LoRaSpreadFactor.toByte : LoRaSpreadFactor → ℕ
  | .sf5 => 0x05
  | .sf6 => 0x06
  | .sf7 => 0x07
  | .sf8 => 0x08
  | .sf9 => 0x09
  | .sf10 => 0x0A
  | .sf11 => 0x0B
  | .sf12 => 0x0C

/-- The impl From of u8 for LoRaSpreadFactor, src/src/op/modulation.rs lines
50 to 64. The source panics on an unmatched byte; the panic is modelled as
Option.none. -/
def LoRaSpreadFactor.fromByte : ℕ → Option LoRaSpreadFactor
  | 0x05 => some .sf5
  | 0x06 => some .sf6
  | 0x07 => some .sf7
  | 0x08 => some .sf8
  | 0x09 => some .sf9
  | 0x0A => some .sf10
  | 0x0B => some .sf11
  | 0x0C => some .sf12
  | _ => none

/-- LoRaBandWidth of src/src/op/modulation.rs. -/
inductive LoRaBandWidth where
  | bw7 | bw10 | bw15 | bw20 | bw31 | bw41 | bw62 | bw125 | bw250 | bw500
deriving DecidableEq, Repr, Fintype

/-- The repr(u8) discriminant of LoRaBandWidth: a non-contiguous code set. -/
def LoRaBandWidth.toByte : LoRaBandWidth → ℕ
  | .bw7 => 0x00
  | .bw10 => 0x08
  | .bw15 => 0x01
  | .bw20 => 0x09
  | .bw31 => 0x02
  | .bw41 => 0x0A
  | .bw62 => 0x03
  | .bw125 => 0x04
  | .bw250 => 0x05
  | .bw500 => 0x06

/-- The impl From of u8 for LoRaBandWidth, src/src/op/modulation.rs lines 91
to 107. The source panics on an unmatched byte; the panic is modelled as
Option.none. -/
def LoRaBandWidth.fromByte : ℕ → Option LoRaBandWidth
  | 0x00 => some .bw7
  | 0x08 => some .bw10
  | 0x01 => some .bw15
  | 0x09 => some .bw20
  | 0x02 => some .bw31
  | 0x0A => some .bw41
  | 0x03 => some .bw62
  | 0x04 => some .bw125
  | 0x05 => some .bw250
  | 0x06 => some .bw500
  | _ => none

/-- LoraCodingRate of src/src/op/modulation.rs. -/
inductive LoraCodingRate where
  | cr4_5 | cr4_6 | cr4_7 | cr4_8
deriving DecidableEq, Repr

/-- The repr(u8) discriminant of LoraCodingRate. -/
def LoraCodingRate.toByte : LoraCodingRate → ℕ
  | .cr4_5 => 0x01
  | .cr4_6 => 0x02
  | .cr4_7 => 0x03
  | .cr4_8 => 0x04

/-- LoraModParams of src/src/op/modulation.rs. -/
structure LoraModParams where
  spread_factor : LoRaSpreadFactor
  bandwidth : LoRaBandWidth
  coding_rate : LoraCodingRate
  low_data_rate_optimize : Bool
deriving DecidableEq, Repr

/-- The Default impl for LoraModParams, src/src/op/modulation.rs. -/
def LoraModParams.default : LoraModParams :=
  ⟨.sf7, .bw125, .cr4_5, false⟩

/-- ModParams of src/src/op/modulation.rs: the 8-byte parameter block. -/
structure ModParams where
  inner : List ℕ
deriving DecidableEq, Repr

/-- The impl From of LoraModParams for ModParams, src/src/op/modulation.rs
lines 185 to 201. -/
def LoraModParams.toModParams (v : LoraModParams) : ModParams :=
  ⟨[v.spread_factor.toByte, v.bandwidth.toByte, v.coding_rate.toByte,
    b2n v.low_data_rate_optimize, 0x00, 0x00, 0x00, 0x00]⟩

/-! ## Packet codec, src/src/op/packet.rs -/

/-- PacketType of src/src/op/packet.rs. -/
inductive PacketType where
  | gfsk
  | lora
deriving DecidableEq, Repr

/-- The repr(u8) discriminant of PacketType. -/
def PacketType.toByte : PacketType → ℕ
  | .gfsk => 0x00
  | .lora => 0x01

/-- LoRaHeaderType of src/src/op/packet.rs. -/
inductive LoRaHeaderType where
  | varLen
  | fixedLen
deriving DecidableEq, Repr

/-- The repr(u8) discriminant of LoRaHeaderType. -/
def LoRaHeaderType.toByte : LoRaHeaderType → ℕ
  | .varLen => 0x00
  | .fixedLen => 0x01

/-- LoRaCrcType of src/src/op/packet.rs. -/
inductive LoRaCrcType where
  | crcOff
  | crcOn
deriving DecidableEq, Repr

/-- The repr(u8) discriminant of LoRaCrcType. -/
def LoRaCrcType.toByte : LoRaCrcType → ℕ
  | .crcOff => 0x00
  | .crcOn => 0x01

/-- LoRaInvertIq of src/src/op/packet.rs. -/
inductive LoRaInvertIq where
  | standard
  | inverted
deriving DecidableEq, Repr

/-- The repr(u8) discriminant of LoRaInvertIq. -/
def LoRaInvertIq.toByte : LoRaInvertIq → ℕ
  | .standard => 0x00
  | .inverted => 0x01

/-- Big-endian bytes of a u16 value (u16 to_be_bytes in the source). -/
def u16be (v : ℕ) : List ℕ := [v / 256 % 256, v % 256]

/-- Big-endian bytes of a u32 value (u32 to_be_bytes in the source). -/
def u32be (v : ℕ) : List ℕ :=
  [v / 16777216 % 256, v / 65536 % 256, v / 256 % 256, v % 256]

/-- LoRaPacketParams of src/src/op/packet.rs. -/
structure LoRaPacketParams where
  preamble_len : ℕ
  header_type : LoRaHeaderType
  payload_len : ℕ
  crc_type : LoRaCrcType
  invert_iq : LoRaInvertIq
deriving DecidableEq, Repr

/-- The Default impl for LoRaPacketParams, src/src/op/packet.rs lines 150
to 160. -/
def LoRaPacketParams.default : LoRaPacketParams :=
  ⟨0x0008, .varLen, 0x00, .crcOff, .standard⟩

/-- Builder setter set_preamble_len of src/src/op/packet.rs. -/
def LoRaPacketParams.set_preamble_len (p : LoRaPacketParams) (v : ℕ) :
    LoRaPacketParams := { p with preamble_len := v }

/-- Builder setter set_header_type of src/src/op/packet.rs. -/
def LoRaPacketParams.set_header_type (p : LoRaPacketParams)
    (v : LoRaHeaderType) : LoRaPacketParams := { p with header_type := v }

/-- Builder setter set_payload_len of src/src/op/packet.rs. -/
def LoRaPacketParams.set_payload_len (p : LoRaPacketParams) (v : ℕ) :
    LoRaPacketParams := { p with payload_len := v }

/-- Builder setter set_crc_type of src/src/op/packet.rs. -/
def LoRaPacketParams.set_crc_type (p : LoRaPacketParams) (v : LoRaCrcType) :
    LoRaPacketParams := { p with crc_type := v }

/-- Builder setter set_invert_iq of src/src/op/packet.rs. -/
def LoRaPacketParams.set_invert_iq (p : LoRaPacketParams)
    (v : LoRaInvertIq) : LoRaPacketParams := { p with invert_iq := v }

/-- PacketParams of src/src/op/packet.rs: the 9-byte parameter block. -/
structure PacketParams where
  inner : List ℕ
deriving DecidableEq, Repr

/-- The impl From of LoRaPacketParams for PacketParams,
src/src/op/packet.rs lines 110 to 128: big-endian preamble length, then
header type, payload length, crc type, invert-iq bytes, then three zeros. -/
def LoRaPacketParams.toPacketParams (v : LoRaPacketParams) : PacketParams :=
  ⟨u16be v.preamble_len ++
    [v.header_type.toByte, v.payload_len, v.crc_type.toByte,
     v.invert_iq.toByte, 0x00, 0x00, 0x00]⟩

/-! ## Spec-modelled stand-ins for files missing under src/ -/

/-- Modelled from the spec: StandbyConfig (the parameter of SetStandby) is
not under src/. Section 4.4 step 2 forces standby in internal RC oscillator
mode; the vendor opcode table gives STDBY_RC the byte 0x00 and STDBY_XOSC
the byte 0x01. -/
inductive StandbyConfig where
  | stbyRc
  | stbyXosc
deriving DecidableEq, Repr

/-- Byte of the modelled StandbyConfig. -/
def StandbyConfig.toByte : StandbyConfig → ℕ
  | .stbyRc => 0x00
  | .stbyXosc => 0x01

/-- Modelled from the spec: src/op/status.rs is not under src/. The spec
describes Status as a read-only decoded view over the one status register
byte, with no invariant beyond the hardware bit width, so it is modelled as
the wrapped raw byte. -/
structure Status where
  raw : ℕ
deriving DecidableEq, Repr

/-- Modelled from the spec: the impl From of u8 for Status, from the
missing src/op/status.rs: decode a status byte. -/
def Status.fromByte (b : ℕ) : Status := ⟨b⟩

/-- Modelled from the spec: src/op/rxtx.rs (RxTxTimeout) is not under
src/. The spec describes RxTxTimeout as a 24-bit duration decomposed into 3
bytes; every multi-byte numeric parameter is big-endian unless stated
otherwise, so the impl From of RxTxTimeout for a 3-byte array is the
big-endian decomposition of the 24-bit value. -/
def rxTxTimeoutBytes (t : ℕ) : List ℕ :=
  [t / 65536 % 256, t / 256 % 256, t % 256]

/-- Modelled from the spec: src/op/irq.rs (IrqMask) is not under src/. The
spec describes IrqMask as a 16-bit bitmask supporting all and none; the
masks are modelled as the raw u16 values. IrqMask::all covers all sixteen
bits. -/
def IrqMask.allMask : ℕ := 0xFFFF

/-- Modelled from the spec: IrqMask::none, the empty 16-bit mask. -/
def IrqMask.noneMask : ℕ := 0x0000

/-- Modelled from the spec: src/reg.rs (the register address table) is not
under src/. Section 4.4 step 14 programs the LoRa sync word via direct
register write; the vendor register table places the sync word MSB register
at address 0x0740. -/
def Register.loRaSyncWordMsb : ℕ := 0x0740

/-! ## Bus and pin events recorded by the scripted double -/

/-- One sub-operation of an atomic bus transaction (the embedded-hal
Operation values used by the source): a write of bytes, a read of a given
length, or a delay in nanoseconds. -/
inductive SpiOp where
  | write (bytes : List ℕ)
  | read (len : ℕ)
  | delayNs (ns : ℕ)
deriving DecidableEq, Repr

/-- One event recorded by the scripted bus and pin double: an SpiDevice
write, an SpiDevice transfer_in_place (recording the written bytes), an
SpiDevice transaction, a reset-line or antenna-line edge, or a wait on the
busy or dio1 line. -/
inductive Event where
  | spiWrite (bytes : List ℕ)
  | spiTransfer (bytes : List ℕ)
  | spiTransaction (ops : List SpiOp)
  | nrstLow
  | nrstHigh
  | antLow
  | antHigh
  | busyWaitLow
  | dio1WaitHigh
deriving DecidableEq, Repr

/-- The scripted double. For the n-th fallible bus or pin interaction,
fails n says whether that interaction fails, and resp n i is the i-th byte
the chip answers on a transfer. -/
structure Dbl where
  fails : ℕ → Bool
  resp : ℕ → ℕ → ℕ

/-- The double that never fails and answers zero bytes. -/
def okDbl : Dbl := ⟨fun _ => false, fun _ _ => 0⟩

/-- A double that fails exactly the k-th fallible interaction. -/
def failAt (k : ℕ) : Dbl := ⟨fun n => n == k, fun _ _ => 0⟩

/-- A double that never fails and answers 0x44 on every transfer byte. -/
def respDbl : Dbl := ⟨fun _ => false, fun _ _ => 0x44⟩

/-- Driver-side state: the index of the next fallible interaction and the
log of every event issued so far. -/
structure DState where
  n : ℕ
  log : List Event
deriving Repr

/-- The initial driver state: nothing issued yet. -/
def DState.start : DState := ⟨0, []⟩

/-- Record an event that cannot fail (an infallible output pin edge). -/
def DState.emit (s : DState) (e : Event) : DState := ⟨s.n, s.log ++ [e]⟩

/-- Record one fallible interaction with the double: log the event, consume
one script index, and report whether the double lets it succeed. -/
def busOp (d : Dbl) (s : DState) (e : Event) : DState × Bool :=
  (⟨s.n + 1, s.log ++ [e]⟩, !(d.fails s.n))

/-- The chip answer bytes of the n-th interaction, len bytes long. -/
def respBytes (d : Dbl) (n len : ℕ) : List ℕ :=
  (List.range len).map (d.resp n)

/-! ## Driver command surface, src/src/sx/mod.rs

Each operation is a function of the double and the driver state, returning
the new state and the same result the source returns. The namespace SX126x
mirrors the impl block of SX126x. -/

namespace SX126x

/-- set_packet_type of src/src/sx/mod.rs, lines 190 to 198: one bus write
of the 0x8A opcode and the packet type byte, Write error kind. -/
def set_packet_type (d : Dbl) (s : DState) (packet_type : PacketType) :
    DState × Except SpiError Unit :=
  let (s, ok) := busOp d s (.spiWrite [0x8A, packet_type.toByte])
  (s, if ok then .ok () else .error .write)

/-- set_standby of src/src/sx/mod.rs, lines 201 to 210: one bus write of
the 0x80 opcode and the standby config byte, Write error kind. -/
def set_standby (d : Dbl) (s : DState) (standby_config : StandbyConfig) :
    DState × Except SpiError Unit :=
  let (s, ok) := busOp d s (.spiWrite [0x80, standby_config.toByte])
  (s, if ok then .ok () else .error .write)

/-- calibrate of src/src/sx/mod.rs, lines 271 to 279: one bus write of the
0x89 opcode and the calibration mask byte, Write error kind. -/
def calibrate (d : Dbl) (s : DState) (calib_param : CalibParam) :
    DState × Except SpiError Unit :=
  let (s, ok) := busOp d s (.spiWrite [0x89, calib_param.inner])
  (s, if ok then .ok () else .error .write)

/-- calibrate_image of src/src/sx/mod.rs, lines 257 to 268: one bus
transaction writing the 0x98 opcode then the 2-byte band pair, Write error
kind. -/
def calibrate_image (d : Dbl) (s : DState) (freq : CalibImageFreq) :
    DState × Except SpiError Unit :=
  let (s, ok) := busOp d s
    (.spiTransaction [.write [0x98], .write freq.toBytes])
  (s, if ok then .ok () else .error .write)

/-- write_register of src/src/sx/mod.rs, lines 282 to 299: one bus
transaction writing the 0x0D opcode, the big-endian register address, then
the data bytes, Write error kind. -/
def write_register (d : Dbl) (s : DState) (register : ℕ) (data : List ℕ) :
    DState × Except SpiError Unit :=
  let (s, ok) := busOp d s
    (.spiTransaction [.write [0x0D], .write (u16be register), .write data])
  (s, if ok then .ok () else .error .write)

/-- set_sync_word of src/src/sx/mod.rs, lines 183 to 186: a write_register
of the big-endian sync word at the sync word MSB register. -/
def set_sync_word (d : Dbl) (s : DState) (sync_word : ℕ) :
    DState × Except SpiError Unit :=
  write_register d s Register.loRaSyncWordMsb (u16be sync_word)

/-- write_buffer of src/src/sx/mod.rs, lines 324 to 336: one bus
transaction writing the 0x0E opcode with the offset, then the data bytes,
Write error kind. -/
def write_buffer (d : Dbl) (s : DState) (offset : ℕ) (data : List ℕ) :
    DState × Except SpiError Unit :=
  let (s, ok) := busOp d s
    (.spiTransaction [.write [0x0E, offset], .write data])
  (s, if ok then .ok () else .error .write)

/-- set_dio2_as_rf_switch_ctrl of src/src/sx/mod.rs, lines 354 to 363: one
bus write of the 0x9D opcode and the enable byte, Write error kind. -/
def set_dio2_as_rf_switch_ctrl (d : Dbl) (s : DState) (enable : Bool) :
    DState × Except SpiError Unit :=
  let (s, ok) := busOp d s (.spiWrite [0x9D, b2n enable])
  (s, if ok then .ok () else .error .write)

/-- set_dio3_as_tcxo_ctrl of src/src/sx/mod.rs, lines 378 to 391: one bus
transaction writing the 0x97 opcode with the voltage byte, then the 3 delay
bytes, Write error kind. The voltage byte and delay bytes stand in for the
TcxoVoltage and TcxoDelay types of the missing src/op/tcxo.rs. -/
def set_dio3_as_tcxo_ctrl (d : Dbl) (s : DState) (tcxo_voltage : ℕ)
    (tcxo_delay : List ℕ) : DState × Except SpiError Unit :=
  let (s, ok) := busOp d s
    (.spiTransaction [.write [0x97, tcxo_voltage], .write tcxo_delay])
  (s, if ok then .ok () else .error .write)

/-- reset of src/src/sx/mod.rs, lines 415 to 435: drive the reset line low
(infallible), run a 200000 ns delay transaction with early return on
failure, then drive the reset line high. -/
def reset (d : Dbl) (s : DState) : DState × Except SpiError Unit :=
  let s := s.emit .nrstLow
  let (s, ok) := busOp d s (.spiTransaction [.delayNs 200000])
  if ok then
    let s := s.emit .nrstHigh
    (s, .ok ())
  else (s, .error .write)

/-- set_dio_irq_params of src/src/sx/mod.rs, lines 447 to 471: one bus
transaction writing the 0x08 opcode then the big-endian irq mask, dio1
mask, dio2 mask and dio3 mask, Transfer error kind. -/
def set_dio_irq_params (d : Dbl) (s : DState)
    (irq_mask dio1_mask dio2_mask dio3_mask : ℕ) :
    DState × Except SpiError Unit :=
  let (s, ok) := busOp d s
    (.spiTransaction [.write [0x08], .write (u16be irq_mask),
      .write (u16be dio1_mask), .write (u16be dio2_mask),
      .write (u16be dio3_mask)])
  (s, if ok then .ok () else .error .transfer)

/-- clear_irq_status of src/src/sx/mod.rs, lines 486 to 497: one bus
transaction writing the 0x02 opcode then the big-endian mask, Write error
kind. -/
def clear_irq_status (d : Dbl) (s : DState) (mask : ℕ) :
    DState × Except SpiError Unit :=
  let (s, ok) := busOp d s
    (.spiTransaction [.write [0x02], .write (u16be mask)])
  (s, if ok then .ok () else .error .write)

/-- set_tx of src/src/sx/mod.rs, lines 501 to 514: a transfer_in_place of
the 0x83 opcode followed by the 3 timeout bytes, Transfer error kind. On
success the source returns Status decoded from timeout[1], the middle byte
of the 3-byte timeout encoding, ignoring the bytes the transfer read
back. -/
def set_tx (d : Dbl) (s : DState) (timeout : ℕ) :
    DState × Except SpiError Status :=
  let tb := rxTxTimeoutBytes timeout
  let (s, ok) := busOp d s (.spiTransfer ([0x83] ++ tb))
  (s, if ok then .ok (Status.fromByte (tb.getD 1 0)) else .error .transfer)

/-- set_packet_params of src/src/sx/mod.rs, lines 529 to 540: one bus
transaction writing the 0x8C opcode then the 9 parameter bytes, Write error
kind. -/
def set_packet_params (d : Dbl) (s : DState) (params : PacketParams) :
    DState × Except SpiError Unit :=
  let (s, ok) := busOp d s
    (.spiTransaction [.write [0x8C], .write params.inner])
  (s, if ok then .ok () else .error .write)

/-- set_mod_params of src/src/sx/mod.rs, lines 543 to 554: one bus
transaction writing the 0x8B opcode then the 8 parameter bytes, Write error
kind. -/
def set_mod_params (d : Dbl) (s : DState) (params : ModParams) :
    DState × Except SpiError Unit :=
  let (s, ok) := busOp d s
    (.spiTransaction [.write [0x8B], .write params.inner])
  (s, if ok then .ok () else .error .write)

/-- set_tx_params of src/src/sx/mod.rs, lines 557 to 568: one bus
transaction writing the 0x8E opcode then the 2 parameter bytes, Write error
kind. The 2 bytes stand in for the TxParams block of the missing
src/op/rxtx.rs. -/
def set_tx_params (d : Dbl) (s : DState) (params : List ℕ) :
    DState × Except SpiError Unit :=
  let (s, ok) := busOp d s
    (.spiTransaction [.write [0x8E], .write params])
  (s, if ok then .ok () else .error .write)

/-- set_rf_frequency of src/src/sx/mod.rs, lines 573 to 584: one bus
transaction writing the 0x86 opcode then the 4 big-endian frequency
register bytes, Write error kind. -/
def set_rf_frequency (d : Dbl) (s : DState) (rf_freq : ℕ) :
    DState × Except SpiError Unit :=
  let (s, ok) := busOp d s
    (.spiTransaction [.write [0x86], .write (u32be rf_freq)])
  (s, if ok then .ok () else .error .write)

/-- set_pa_config of src/src/sx/mod.rs, lines 587 to 598: one bus
transaction writing the 0x95 opcode then the 4 parameter bytes, Write error
kind. The 4 bytes stand in for the PaConfig block of the missing
src/op/rxtx.rs. -/
def set_pa_config (d : Dbl) (s : DState) (pa_config : List ℕ) :
    DState × Except SpiError Unit :=
  let (s, ok) := busOp d s
    (.spiTransaction [.write [0x95], .write pa_config])
  (s, if ok then .ok () else .error .write)

/-- set_buffer_base_address of src/src/sx/mod.rs, lines 601 to 610: one bus
write of the 0x8F opcode and the two base addresses, Write error kind. -/
def set_buffer_base_address (d : Dbl) (s : DState)
    (tx_base_addr rx_base_addr : ℕ) : DState × Except SpiError Unit :=
  let (s, ok) := busOp d s (.spiWrite [0x8F, tx_base_addr, rx_base_addr])
  (s, if ok then .ok () else .error .write)

/-- wait_on_busy_async of src/src/sx/mod.rs, lines 662 to 673: a 1000 ns
delay transaction (Output pin error kind on failure), then a wait for the
busy line to go low (Input pin error kind on failure). -/
def wait_on_busy_async (d : Dbl) (s : DState) :
    DState × Except PinError Unit :=
  let (s, ok) := busOp d s (.spiTransaction [.delayNs 1000])
  if ok then
    let (s, ok2) := busOp d s .busyWaitLow
    (s, if ok2 then .ok () else .error .input)
  else (s, .error .output)

/-- wait_on_dio1_async of src/src/sx/mod.rs, lines 676 to 681: a wait for
the dio1 line to go high, Input pin error kind on failure. -/
def wait_on_dio1_async (d : Dbl) (s : DState) :
    DState × Except PinError Unit :=
  let (s, ok) := busOp d s .dio1WaitHigh
  (s, if ok then .ok () else .error .input)

end SX126x

/-! ## Configuration aggregate, src/src/conf.rs -/

/-- Config of src/src/conf.rs. The pa_config and tx_params fields carry the
4-byte and 2-byte encoded blocks (their types live in the missing
src/op/rxtx.rs); the irq masks carry the raw u16 values (src/op/irq.rs is
missing); tcxo_opts carries the voltage byte and the 3 delay bytes
(src/op/tcxo.rs is missing). -/
structure Config where
  packet_type : PacketType
  sync_word : ℕ
  calib_param : CalibParam
  mod_params : ModParams
  pa_config : List ℕ
  packet_params : Option PacketParams
  tx_params : List ℕ
  dio1_irq_mask : ℕ
  dio2_irq_mask : ℕ
  dio3_irq_mask : ℕ
  rf_freq : ℕ
  rf_frequency : ℕ
  tcxo_opts : Option (ℕ × List ℕ)

namespace SX126x

/-- init_async of src/src/sx/mod.rs, lines 106 to 178. Every step statement
of the source discards the Result of the step (there is no question-mark
operator in the body), so each step here drops its Except value and the
sequence always continues; the function returns Ok(()) unconditionally,
matching the Result type with the Infallible error (Empty here). -/
def init_async (d : Dbl) (s : DState) (conf : Config) :
    DState × Except Empty Unit :=
  let (s, _) := reset d s
  let (s, _) := wait_on_busy_async d s
  let (s, _) := set_standby d s .stbyRc
  let (s, _) := wait_on_busy_async d s
  let (s, _) := set_packet_type d s conf.packet_type
  let (s, _) := wait_on_busy_async d s
  let (s, _) := set_rf_frequency d s conf.rf_freq
  let (s, _) := wait_on_busy_async d s
  let s :=
    match conf.tcxo_opts with
    | some (tcxo_voltage, tcxo_delay) =>
      let (s, _) := set_dio3_as_tcxo_ctrl d s tcxo_voltage tcxo_delay
      let (s, _) := wait_on_busy_async d s
      s
    | none => s
  let (s, _) := calibrate d s conf.calib_param
  let (s, _) := wait_on_busy_async d s
  let (s, _) := calibrate_image d s
    (CalibImageFreq.from_rf_frequency conf.rf_freq)
  let (s, _) := wait_on_busy_async d s
  let (s, _) := set_pa_config d s conf.pa_config
  let (s, _) := wait_on_busy_async d s
  let (s, _) := set_tx_params d s conf.tx_params
  let (s, _) := wait_on_busy_async d s
  let (s, _) := set_buffer_base_address d s 0x00 0x00
  let (s, _) := wait_on_busy_async d s
  let (s, _) := set_mod_params d s conf.mod_params
  let (s, _) := wait_on_busy_async d s
  let s :=
    match conf.packet_params with
    | some packet_params =>
      let (s, _) := set_packet_params d s packet_params
      let (s, _) := wait_on_busy_async d s
      s
    | none => s
  let (s, _) := set_dio_irq_params d s
    conf.dio1_irq_mask conf.dio1_irq_mask conf.dio2_irq_mask
    conf.dio3_irq_mask
  let (s, _) := wait_on_busy_async d s
  let (s, _) := set_dio2_as_rf_switch_ctrl d s true
  let (s, _) := wait_on_busy_async d s
  let (s, _) := set_sync_word d s conf.sync_word
  let (s, _) := wait_on_busy_async d s
  (s, .ok ())

/-- write_bytes_async of src/src/sx/mod.rs, lines 616 to 646: write the
data into the buffer at offset 0, set the packet params built from the
default block with the given preamble length, the data length cast to u8,
and the given crc type, enter TX mode with the given timeout, wait for the
busy line to go low, wait for dio1 to go high (both pin errors mapped to
the BusError kind), clear all IRQ flags, and return the Status value that
set_tx produced. Every step propagates its error immediately, as the
question-mark operators in the source do. -/
def write_bytes_async (d : Dbl) (s : DState) (data : List ℕ) (timeout : ℕ)
    (preamble_len : ℕ) (crc_type : LoRaCrcType) :
    DState × Except SpiError Status :=
  let (s, r) := write_buffer d s 0x00 data
  match r with
  | .error e => (s, .error e)
  | .ok _ =>
    let params := ((((LoRaPacketParams.default.set_preamble_len
      preamble_len).set_payload_len (data.length % 256)).set_crc_type
      crc_type)).toPacketParams
    let (s, r) := set_packet_params d s params
    match r with
    | .error e => (s, .error e)
    | .ok _ =>
      let (s, r) := set_tx d s timeout
      match r with
      | .error e => (s, .error e)
      | .ok status =>
        let (s, r) := wait_on_busy_async d s
        match r with
        | .error _ => (s, .error .busError)
        | .ok _ =>
          let (s, r) := wait_on_dio1_async d s
          match r with
          | .error _ => (s, .error .busError)
          | .ok _ =>
            let (s, r) := clear_irq_status d s IrqMask.allMask
            match r with
            | .error e => (s, .error e)
            | .ok _ => (s, .ok status)

end SX126x

/-! ## Polling wait loop, src/src/sx/wait.rs -/

/-- The anywait_for_high impl of PollingInputPin, src/src/sx/wait.rs lines
31 to 36. The pin is modelled as the list of successive is_high sample
results. The source loops while a sample is Ok(false); any other sample
result, Ok(true) or Err, exits the loop and the function returns Ok(()).
An empty remainder means the loop is still spinning, modelled as none. -/
def anywait_for_high : List (Except PinError Bool) →
    Option (Except PinError Unit)
  | [] => none
  | .ok false :: rest => anywait_for_high rest
  | _ :: _ => some (.ok ())

/-- The anywait_for_low impl of PollingInputPin, src/src/sx/wait.rs lines
38 to 43. The pin is modelled as the list of successive is_low sample
results; the loop runs while a sample is Ok(false) and returns Ok(()) on
any other sample result. -/
def anywait_for_low : List (Except PinError Bool) →
    Option (Except PinError Unit)
  | [] => none
  | .ok false :: rest => anywait_for_low rest
  | _ :: _ => some (.ok ())

/-! ## Spec-side reference definitions

The following definitions are written from the words of the spec, not from
the source; the refinement theorems compare the source embedding against
them. -/

/-- The busy-wait step that follows every command of the init sequence, as
the source implements it: the 1000 ns delay transaction of
wait_on_busy_async followed by the wait for the busy line to go low. -/
def busyWaitEvents : List Event :=
  [.spiTransaction [.delayNs 1000], .busyWaitLow]

/-- The 14-step init sequence of spec section 4.4, written step by step
from the spec words: 1 hardware reset, 2 force standby in RC mode, 3 select
the packet protocol, 4 program the RF frequency register, 5 if TCXO options
are present configure DIO3 as TCXO control, 6 run full calibration then
image calibration via the frequency band lookup, 7 program the PA
configuration, 8 program TX power and ramp, 9 set the buffer base addresses
to zero, 10 program the modulation parameters, 11 if packet parameters are
present program them, 12 program the DIO and IRQ routing masks, 13 enable
DIO2 as RF switch control, 14 program the sync word by direct register
write; each step is followed by a busy-wait. Step 12 records what the
source sends: the DIO1 mask twice, then the DIO2 and DIO3 masks. -/
def initSpecLog (conf : Config) : List Event :=
  [.nrstLow, .spiTransaction [.delayNs 200000], .nrstHigh]
    ++ busyWaitEvents
    ++ [.spiWrite [0x80, 0x00]] ++ busyWaitEvents
    ++ [.spiWrite [0x8A, conf.packet_type.toByte]] ++ busyWaitEvents
    ++ [.spiTransaction [.write [0x86], .write (u32be conf.rf_freq)]]
    ++ busyWaitEvents
    ++ (match conf.tcxo_opts with
        | some (v, delay) =>
          [.spiTransaction [.write [0x97, v], .write delay]]
            ++ busyWaitEvents
        | none => [])
    ++ [.spiWrite [0x89, conf.calib_param.inner]] ++ busyWaitEvents
    ++ [.spiTransaction [.write [0x98],
        .write (CalibImageFreq.from_rf_frequency conf.rf_freq).toBytes]]
    ++ busyWaitEvents
    ++ [.spiTransaction [.write [0x95], .write conf.pa_config]]
    ++ busyWaitEvents
    ++ [.spiTransaction [.write [0x8E], .write conf.tx_params]]
    ++ busyWaitEvents
    ++ [.spiWrite [0x8F, 0x00, 0x00]] ++ busyWaitEvents
    ++ [.spiTransaction [.write [0x8B], .write conf.mod_params.inner]]
    ++ busyWaitEvents
    ++ (match conf.packet_params with
        | some pp =>
          [.spiTransaction [.write [0x8C], .write pp.inner]]
            ++ busyWaitEvents
        | none => [])
    ++ [.spiTransaction [.write [0x08], .write (u16be conf.dio1_irq_mask),
        .write (u16be conf.dio1_irq_mask), .write (u16be conf.dio2_irq_mask),
        .write (u16be conf.dio3_irq_mask)]]
    ++ busyWaitEvents
    ++ [.spiWrite [0x9D, 0x01]] ++ busyWaitEvents
    ++ [.spiTransaction [.write [0x0D], .write (u16be 0x0740),
        .write (u16be conf.sync_word)]]
    ++ busyWaitEvents

/-- A concrete configuration for closed evaluations: the 868 MHz target
with a 32 MHz crystal, register value from calc_rf_freq, both optional
blocks present, and three distinct DIO masks. -/
def conf868 : Config where
  packet_type := .lora
  sync_word := 0x1424
  calib_param := CalibParam.new true true true true true true true
  mod_params := LoraModParams.default.toModParams
  pa_config := [0x04, 0x07, 0x00, 0x01]
  packet_params := some (LoRaPacketParams.default.toPacketParams)
  tx_params := [0x00, 0x04]
  dio1_irq_mask := 0x0001
  dio2_irq_mask := 0x0002
  dio3_irq_mask := 0x0003
  rf_freq := calc_rf_freq 868000000 32000000
  rf_frequency := 868
  tcxo_opts := some (0x07, [0x00, 0x00, 0x40])

/-! ## Helper instances and lemmas shared by the claim theorems -/

deriving instance DecidableEq for Except

set_option maxRecDepth 16384 in
set_option maxHeartbeats 1000000 in
/-- The event log of a failure-free init run equals the 14-step reference
log written from the spec. Proved by cases on the two optional
configuration fields. -/
theorem initLog_spec (conf : Config) :
    (SX126x.init_async okDbl DState.start conf).1.log = initSpecLog conf := by
  rcases conf with ⟨pt, sw, cp, mp, pa, pp, tx, m1, m2, m3, rf, rfm, tcxo⟩
  rcases tcxo with _ | ⟨v, delay⟩ <;> rcases pp with _ | pp <;>
    simp [SX126x.init_async, SX126x.reset, SX126x.wait_on_busy_async,
      SX126x.set_standby, SX126x.set_packet_type, SX126x.set_rf_frequency,
      SX126x.set_dio3_as_tcxo_ctrl, SX126x.calibrate, SX126x.calibrate_image,
      SX126x.set_pa_config, SX126x.set_tx_params,
      SX126x.set_buffer_base_address, SX126x.set_mod_params,
      SX126x.set_packet_params, SX126x.set_dio_irq_params,
      SX126x.set_dio2_as_rf_switch_ctrl, SX126x.set_sync_word,
      SX126x.write_register, busOp, DState.emit, DState.start, okDbl,
      initSpecLog, busyWaitEvents, StandbyConfig.toByte, b2n,
      Register.loRaSyncWordMsb]

/-- When the polling wait-for-high loop exits, it returns Ok and the sample
list has a first entry that is not Ok false, with only Ok false entries
before it. -/
theorem pollExit_high (s : List (Except PinError Bool))
    (r : Except PinError Unit) (h : anywait_for_high s = some r) :
    r = Except.ok () ∧ ∃ i x, s.get? i = some x ∧ x ≠ Except.ok false ∧
      ∀ j, j < i → s.get? j = some (Except.ok false) := by
  induction s with
  | nil => simp [anywait_for_high] at h
  | cons a rest ih =>
    cases a with
    | ok b =>
      cases b with
      | false =>
        rw [show anywait_for_high (Except.ok false :: rest) =
          anywait_for_high rest from rfl] at h
        obtain ⟨hr, i, x, hx, hne, hall⟩ := ih h
        refine ⟨hr, i + 1, x, by simpa using hx, hne, ?_⟩
        intro j hj
        match j with
        | 0 => rfl
        | j + 1 => simpa using hall j (by omega)
      | true =>
        rw [show anywait_for_high (Except.ok true :: rest) =
          some (Except.ok ()) from rfl] at h
        obtain rfl := Option.some.inj h
        exact ⟨rfl, 0, Except.ok true, rfl, by simp, by intro j hj; omega⟩
    | error e =>
      rw [show anywait_for_high (Except.error e :: rest) =
        some (Except.ok ()) from rfl] at h
      obtain rfl := Option.some.inj h
      exact ⟨rfl, 0, Except.error e, rfl, by simp, by intro j hj; omega⟩

/-- When the polling wait-for-low loop exits, it returns Ok and the sample
list has a first entry that is not Ok false, with only Ok false entries
before it. -/
theorem pollExit_low (s : List (Except PinError Bool))
    (r : Except PinError Unit) (h : anywait_for_low s = some r) :
    r = Except.ok () ∧ ∃ i x, s.get? i = some x ∧ x ≠ Except.ok false ∧
      ∀ j, j < i → s.get? j = some (Except.ok false) := by
  induction s with
  | nil => simp [anywait_for_low] at h
  | cons a rest ih =>
    cases a with
    | ok b =>
      cases b with
      | false =>
        rw [show anywait_for_low (Except.ok false :: rest) =
          anywait_for_low rest from rfl] at h
        obtain ⟨hr, i, x, hx, hne, hall⟩ := ih h
        refine ⟨hr, i + 1, x, by simpa using hx, hne, ?_⟩
        intro j hj
        match j with
        | 0 => rfl
        | j + 1 => simpa using hall j (by omega)
      | true =>
        rw [show anywait_for_low (Except.ok true :: rest) =
          some (Except.ok ()) from rfl] at h
        obtain rfl := Option.some.inj h
        exact ⟨rfl, 0, Except.ok true, rfl, by simp, by intro j hj; omega⟩
    | error e =>
      rw [show anywait_for_low (Except.error e :: rest) =
        some (Except.ok ()) from rfl] at h
      obtain rfl := Option.some.inj h
      exact ⟨rfl, 0, Except.error e, rfl, by simp, by intro j hj; omega⟩

/-! ## Claim theorems -/

set_option maxRecDepth 100000 in
/-- Claim C1. The claim states that a bus failure at any step of the init
sequence aborts the sequence at that step with that step error kind and
that no later step runs. The source contradicts this: every step statement
of init_async discards its Result, so this theorem evaluates init_async
against a double whose fourth scripted interaction, the SetStandby bus
write, fails, and shows that the run still returns Ok, that its event log
equals the log of the failure-free run, and that the later SetPacketType
write is still issued. -/
theorem c1_init_ignores_step_failures :
    (SX126x.init_async (failAt 3) DState.start conf868).2 = .ok () ∧
    (SX126x.init_async (failAt 3) DState.start conf868).1.log =
      (SX126x.init_async okDbl DState.start conf868).1.log ∧
    Event.spiWrite [0x8A, 0x01] ∈
      (SX126x.init_async (failAt 3) DState.start conf868).1.log := by
  refine ⟨rfl, by decide, by decide⟩

set_option maxRecDepth 100000 in
/-- Claim C2, counterexample. The claim states that the register value for
the pair (868000000, 32000000) is 0x6C8000 and that the computation always
equals the rounded quotient. The source computes 910163968 for that pair,
which is not 0x6C8000; and at (868000001, 32000000) the f32 computation
still gives 910163968 while the rounded quotient is 910163969, so the exact
rounding formula does not hold for all pairs either. -/
theorem c2_counterexample :
    calc_rf_freq 868000000 32000000 = 910163968 ∧
    (910163968 : ℕ) ≠ 0x6C8000 ∧
    calc_rf_freq 868000001 32000000 = 910163968 ∧
    round ((868000001 * 2 ^ 25 : ℚ) / 32000000) = (910163969 : ℤ) := by
  refine ⟨by decide, by decide, by decide, ?_⟩
  norm_num [round_eq]

set_option maxRecDepth 100000 in
/-- Claim C2, amended. The register value is computed in f32 with
truncation, so it approximates the rounded quotient without always equaling
it: at the device-example pair (868000000, 32000000) the source yields
910163968, which does equal round of 868000000 times 2 to the 25 over
32000000, and not 0x6C8000; at (868000001, 32000000) the source yields
910163968 while the rounded quotient is 910163969. -/
theorem c2_f32_register_value :
    calc_rf_freq 868000000 32000000 = 910163968 ∧
    round ((868000000 * 2 ^ 25 : ℚ) / 32000000) = (910163968 : ℤ) ∧
    calc_rf_freq 868000001 32000000 = 910163968 ∧
    round ((868000001 * 2 ^ 25 : ℚ) / 32000000) = (910163969 : ℤ) := by
  refine ⟨by decide, ?_, by decide, ?_⟩ <;> norm_num [round_eq]

set_option maxRecDepth 100000 in
/-- Claim C3. The claim states that the buffered send returns the status
byte read back from the chip by the SetTx transfer. The source instead
decodes the middle byte of its own 3-byte timeout encoding: against a
double that never fails and answers 0x44 on every transfer byte, sending
one byte with timeout 1000 returns the Status decoded from 0x03, the middle
timeout byte, although the SetTx transfer (the third scripted interaction,
4 bytes long) read back only 0x44 bytes. -/
theorem c3_send_status_not_read_back :
    (SX126x.write_bytes_async respDbl DState.start [0xAB] 1000 8 .crcOn).2 =
      .ok (Status.fromByte 0x03) ∧
    rxTxTimeoutBytes 1000 = [0x00, 0x03, 0xE8] ∧
    respBytes respDbl 2 4 = [0x44, 0x44, 0x44, 0x44] ∧
    Status.fromByte 0x03 ≠ Status.fromByte 0x44 := by
  refine ⟨rfl, by decide, by decide, by decide⟩

set_option maxRecDepth 100000 in
/-- Claim C4, counterexample. The claim states that the routing step sends
the DIO1 mask as the routing mask of all three DIO pins. For the concrete
configuration with DIO masks 1, 2 and 3, the init log does not contain the
transaction that repeats the DIO1 mask three times; it contains the
transaction carrying the DIO1 mask twice and then the DIO2 and DIO3
masks. -/
theorem c4_counterexample :
    (Event.spiTransaction [.write [0x08], .write (u16be 0x0001),
      .write (u16be 0x0001), .write (u16be 0x0001), .write (u16be 0x0001)]) ∉
      (SX126x.init_async okDbl DState.start conf868).1.log ∧
    (Event.spiTransaction [.write [0x08], .write (u16be 0x0001),
      .write (u16be 0x0001), .write (u16be 0x0002), .write (u16be 0x0003)]) ∈
      (SX126x.init_async okDbl DState.start conf868).1.log := by
  exact ⟨by decide, by decide⟩

/-- Claim C4, amended. For every configuration, the routing step of init
sends the DIO1 mask twice, as the global IRQ mask and as the DIO1 routing
mask, and sends the DIO2 and DIO3 masks of the configuration as the DIO2
and DIO3 routing masks. -/
theorem c4_routing_masks (conf : Config) :
    (Event.spiTransaction [.write [0x08], .write (u16be conf.dio1_irq_mask),
      .write (u16be conf.dio1_irq_mask), .write (u16be conf.dio2_irq_mask),
      .write (u16be conf.dio3_irq_mask)]) ∈
      (SX126x.init_async okDbl DState.start conf).1.log := by
  rw [initLog_spec]
  rcases conf with ⟨pt, sw, cp, mp, pa, pp, tx, m1, m2, m3, rf, rfm, tcxo⟩
  rcases tcxo with _ | ⟨v, delay⟩ <;> rcases pp with _ | pp <;>
    simp [initSpecLog, busyWaitEvents]

/-- Claim C5. For every payload of length below 256, the buffered send with
timeout 1000, preamble length 8 and CRC on produces exactly the event
sequence WriteBuffer at offset 0 with the payload, SetPacketParams with the
9 bytes for preamble 8, variable-length header, the payload length, CRC on
and standard IQ, the SetTx transfer with the timeout as 3 bytes, the
busy-line wait (the delay transaction and the wait the source issues for
it), the interrupt-line wait, and ClearIrqStatus with mask 0xFFFF, and
nothing else. -/
theorem c5_send_trace (data : List ℕ) (h : data.length < 256) :
    (SX126x.write_bytes_async okDbl DState.start data 1000 8 .crcOn).1.log =
      [.spiTransaction [.write [0x0E, 0x00], .write data],
       .spiTransaction [.write [0x8C],
         .write [0x00, 0x08, 0x00, data.length, 0x01, 0x00, 0x00, 0x00,
           0x00]],
       .spiTransfer [0x83, 0x00, 0x03, 0xE8],
       .spiTransaction [.delayNs 1000], .busyWaitLow, .dio1WaitHigh,
       .spiTransaction [.write [0x02], .write [0xFF, 0xFF]]] := by
  simp [SX126x.write_bytes_async, SX126x.write_buffer,
    SX126x.set_packet_params, SX126x.set_tx, SX126x.wait_on_busy_async,
    SX126x.wait_on_dio1_async, SX126x.clear_irq_status, busOp, DState.start,
    okDbl, LoRaPacketParams.default, LoRaPacketParams.set_preamble_len,
    LoRaPacketParams.set_payload_len, LoRaPacketParams.set_crc_type,
    LoRaPacketParams.toPacketParams, u16be, rxTxTimeoutBytes,
    IrqMask.allMask, LoRaCrcType.toByte, LoRaHeaderType.toByte,
    LoRaInvertIq.toByte, Nat.mod_eq_of_lt h]

/-- Claim C5, witness: the send trace theorem applied to the one-byte
payload 0xAB. -/
theorem c5_send_trace_witness :
    ([0xAB] : List ℕ).length < 256 ∧
    (SX126x.write_bytes_async okDbl DState.start [0xAB] 1000 8 .crcOn).1.log =
      [.spiTransaction [.write [0x0E, 0x00], .write [0xAB]],
       .spiTransaction [.write [0x8C],
         .write [0x00, 0x08, 0x00, ([0xAB] : List ℕ).length, 0x01, 0x00,
           0x00, 0x00, 0x00]],
       .spiTransfer [0x83, 0x00, 0x03, 0xE8],
       .spiTransaction [.delayNs 1000], .busyWaitLow, .dio1WaitHigh,
       .spiTransaction [.write [0x02], .write [0xFF, 0xFF]]] :=
  ⟨by decide, c5_send_trace [0xAB] (by decide)⟩

/-- Claim C6. For every configuration, init issues its commands in the
fixed 14-step order of the spec, each step followed by a busy-wait: the
event log equals the step-by-step reference log, in which the only
branching is that absent TCXO options skip exactly the DIO3-as-TCXO step
and absent packet parameters skip exactly the SetPacketParams step, all
other steps and their relative order being unchanged. -/
theorem c6_init_fixed_order (conf : Config) :
    (SX126x.init_async okDbl DState.start conf).1.log = initSpecLog conf :=
  initLog_spec conf

set_option maxRecDepth 100000 in
/-- Claim C7. For every byte, the spreading-factor and bandwidth decoders
succeed exactly on the bytes that are the code of some enumerant, never
fall back to a default on other bytes, and on success return the enumerant
whose code is the decoded byte; the codes are injective, so that enumerant
is unique. -/
theorem c7_decode_total_on_defined_codes :
    (∀ b : Fin 256,
      ((LoRaSpreadFactor.fromByte b.1).isSome ↔
        ∃ sf : LoRaSpreadFactor, sf.toByte = b.1) ∧
      (∀ sf : LoRaSpreadFactor,
        LoRaSpreadFactor.fromByte b.1 = some sf → sf.toByte = b.1) ∧
      ((LoRaBandWidth.fromByte b.1).isSome ↔
        ∃ bw : LoRaBandWidth, bw.toByte = b.1) ∧
      (∀ bw : LoRaBandWidth,
        LoRaBandWidth.fromByte b.1 = some bw → bw.toByte = b.1)) ∧
    (∀ x y : LoRaSpreadFactor, x.toByte = y.toByte → x = y) ∧
    (∀ x y : LoRaBandWidth, x.toByte = y.toByte → x = y) := by decide

/-- Claim C8. The image-calibration lookup is total: every 32-bit frequency
value maps to one of the five defined 2-byte pairs, and any frequency whose
megahertz quotient lies in none of the five bands maps to the 902 to 928
pair 0xE1 0xE9. -/
theorem c8_lookup_total (f : ℕ) (h : f < 2 ^ 32) :
    (CalibImageFreq.from_rf_frequency f).toBytes ∈
      [[0x6B, 0x6F], [0x75, 0x81], [0xC1, 0xC5], [0xD7, 0xDB],
        [0xE1, 0xE9]] ∧
    (¬(902 ≤ f / 1000000 ∧ f / 1000000 ≤ 928) →
      ¬(863 ≤ f / 1000000 ∧ f / 1000000 ≤ 870) →
      ¬(779 ≤ f / 1000000 ∧ f / 1000000 ≤ 787) →
      ¬(470 ≤ f / 1000000 ∧ f / 1000000 ≤ 510) →
      ¬(430 ≤ f / 1000000 ∧ f / 1000000 ≤ 440) →
      (CalibImageFreq.from_rf_frequency f).toBytes = [0xE1, 0xE9]) := by
  constructor
  · simp only [CalibImageFreq.from_rf_frequency]
    split_ifs <;> simp [CalibImageFreq.toBytes]
  · intro h1 h2 h3 h4 h5
    simp only [CalibImageFreq.from_rf_frequency]
    split_ifs <;> simp_all [CalibImageFreq.toBytes]

/-- Claim C8, witness: the lookup theorem applied to the out-of-band
frequency 3000000000 Hz. -/
theorem c8_lookup_total_witness :
    3000000000 < 2 ^ 32 ∧
    ((CalibImageFreq.from_rf_frequency 3000000000).toBytes ∈
      [[0x6B, 0x6F], [0x75, 0x81], [0xC1, 0xC5], [0xD7, 0xDB],
        [0xE1, 0xE9]] ∧
    (¬(902 ≤ 3000000000 / 1000000 ∧ 3000000000 / 1000000 ≤ 928) →
      ¬(863 ≤ 3000000000 / 1000000 ∧ 3000000000 / 1000000 ≤ 870) →
      ¬(779 ≤ 3000000000 / 1000000 ∧ 3000000000 / 1000000 ≤ 787) →
      ¬(470 ≤ 3000000000 / 1000000 ∧ 3000000000 / 1000000 ≤ 510) →
      ¬(430 ≤ 3000000000 / 1000000 ∧ 3000000000 / 1000000 ≤ 440) →
      (CalibImageFreq.from_rf_frequency 3000000000).toBytes =
        [0xE1, 0xE9])) :=
  ⟨by norm_num, c8_lookup_total 3000000000 (by norm_num)⟩

/-- Claim C9, counterexample. The claim states that the polling wait
returns success only after the line has been sampled in the requested
state. Against a pin whose single sample reports a pin error, the
wait-for-high loop returns success although no sample was ever Ok true. -/
theorem c9_counterexample :
    anywait_for_high [Except.error PinError.input] = some (Except.ok ()) ∧
    Except.ok true ∉ ([Except.error PinError.input] :
      List (Except PinError Bool)) := by decide

/-- Claim C9, amended. Each polling wait operation, when it returns at all,
returns success: it keeps sampling while samples report Ok false and exits
at the first sample that is Ok true or a pin error, so a pin error is
swallowed and also reported as success rather than propagated. -/
theorem c9_polling_wait (s : List (Except PinError Bool))
    (r : Except PinError Unit) :
    (anywait_for_high s = some r →
      r = Except.ok () ∧ ∃ i x, s.get? i = some x ∧ x ≠ Except.ok false ∧
        ∀ j, j < i → s.get? j = some (Except.ok false)) ∧
    (anywait_for_low s = some r →
      r = Except.ok () ∧ ∃ i x, s.get? i = some x ∧ x ≠ Except.ok false ∧
        ∀ j, j < i → s.get? j = some (Except.ok false)) :=
  ⟨pollExit_high s r, pollExit_low s r⟩

/-- Claim C9, witness: the polling wait theorem applied to the sample list
Ok false then Ok true, on the wait-for-high side. -/
theorem c9_polling_wait_witness :
    (Except.ok () : Except PinError Unit) = Except.ok () ∧
    ∃ i x, ([Except.ok false, Except.ok true] :
        List (Except PinError Bool)).get? i = some x ∧
      x ≠ Except.ok false ∧
      ∀ j, j < i → ([Except.ok false, Except.ok true] :
        List (Except PinError Bool)).get? j = some (Except.ok false) :=
  (c9_polling_wait [Except.ok false, Except.ok true] (Except.ok ())).1 rfl

set_option maxRecDepth 100000 in
/-- Claim C10. The image-calibration step of init applies the band lookup
to the stored frequency-register value, not to the target frequency: for
every configuration the init log contains the CalibrateImage transaction
whose pair comes from the lookup at the register value, and for the 868 MHz
configuration with a 32 MHz crystal the register value is 910163968, whose
megahertz quotient lands in the 902 to 928 band, so the pair sent is
0xE1 0xE9 and not the 0xD7 0xDB pair of the 863 to 870 band that the
lookup at the target 868000000 Hz would select. -/
theorem c10_image_calib_uses_register_value :
    (∀ conf : Config, (Event.spiTransaction [.write [0x98],
        .write (CalibImageFreq.from_rf_frequency conf.rf_freq).toBytes]) ∈
        (SX126x.init_async okDbl DState.start conf).1.log) ∧
    conf868.rf_freq = 910163968 ∧
    CalibImageFreq.from_rf_frequency conf868.rf_freq = .mhz902_928 ∧
    (Event.spiTransaction [.write [0x98], .write [0xE1, 0xE9]]) ∈
      (SX126x.init_async okDbl DState.start conf868).1.log ∧
    (Event.spiTransaction [.write [0x98], .write [0xD7, 0xDB]]) ∉
      (SX126x.init_async okDbl DState.start conf868).1.log ∧
    CalibImageFreq.from_rf_frequency 868000000 = .mhz863_870 := by
  refine ⟨fun conf => ?_, by decide, by decide, by decide, by decide,
    by decide⟩
  rw [initLog_spec]
  rcases conf with ⟨pt, sw, cp, mp, pa, pp, tx, m1, m2, m3, rf, rfm, tcxo⟩
  rcases tcxo with _ | ⟨v, delay⟩ <;> rcases pp with _ | pp <;>
    simp [initSpecLog, busyWaitEvents]
